/-
Verification of the chat-history / LLM-relay subsystem of the Chatbot
repository, as a shallow embedding in Lean 4.

The embedding follows the JavaScript source:
  * `ChatHistory` models `backend/chat-history.js` (class ChatHistoryService):
    the two SQLite tables `chat_sessions` and `chat_history` become lists of
    rows, and each method becomes a pure function on a `Store`, with the
    current time passed explicitly where the source uses CURRENT_TIMESTAMP /
    `new Date()`.
  * `Relay` models `backend/llm-websocket.js` (class LLMWebSocketService):
    the mutable client object becomes a `WSClient` record, the `Map` of
    callbacks becomes an association list keyed by correlation id, and the
    externally-decided events (whether `ws.send` throws, what the upstream
    replies, which random fallback sentence is picked) become explicit
    parameters.
  * `Orchestrator` models the `/api/chat` route handler of the backend
    entry file (`app.post('/api/chat', ...)`) as a function that returns the
    HTTP-level result together with the ordered trace of service calls it
    performed.
-/
import Mathlib

namespace ChatHistory

/-- A row of the `chat_sessions` table (see initializeTables in
chat-history.js): id, user_id, session_name, created_at, updated_at,
is_active (1 = active, 0 = archived). Timestamps are abstract naturals. -/
structure SessionRow where
  id : Nat
  user_id : String
  session_name : String
  created_at : Nat
  updated_at : Nat
  is_active : Nat
deriving Repr, DecidableEq

/-- A row of the `chat_history` table: autoincrement id, session_id,
UNIQUE message_id, user_message, nullable bot_response, is_sql_mode,
created_at. -/
structure HistoryRow where
  id : Nat
  session_id : Nat
  message_id : String
  user_message : String
  bot_response : Option String
  is_sql_mode : Nat
  created_at : Nat
deriving Repr, DecidableEq

/-- The whole SQLite database state used by ChatHistoryService, plus the
autoincrement counters of the two tables. -/
structure Store where
  sessions : List SessionRow
  history : List HistoryRow
  nextSessionId : Nat
  nextHistoryId : Nat
deriving Repr, DecidableEq

/-- View row produced by `getSessions`: the session columns plus the two
derived columns `COUNT(h.id) as message_count` and
`MAX(h.created_at) as last_message_at` of the LEFT JOIN. -/
structure SessionView where
  row : SessionRow
  message_count : Nat
  last_message_at : Option Nat
deriving Repr, DecidableEq

/-- Insert a session into a list kept in descending `updated_at` order
(models `ORDER BY s.updated_at DESC`). -/
def insertByUpdated (s : SessionRow) : List SessionRow → List SessionRow
  | [] => [s]
  | t :: ts =>
    if t.updated_at ≤ s.updated_at then s :: t :: ts else t :: insertByUpdated s ts

/-- Sort sessions by descending `updated_at`. -/
def sortByUpdatedDesc (l : List SessionRow) : List SessionRow :=
  l.foldr insertByUpdated []

/-- The number of `chat_history` rows recorded against a session id: this is
exactly the `COUNT(h.id)` the LEFT JOIN of getSessions computes for a session
(every matching history row is counted, whether or not its bot_response is
still NULL). -/
def messageCount (st : Store) (sessionId : Nat) : Nat :=
  (st.history.filter (fun h => h.session_id == sessionId)).length

/-- The number of completed message pairs of a session: history rows whose
bot_response has been filled in.  (This is the quantity the specification
talks about; the SQL in getSessions does not restrict to it.) -/
def completedCount (st : Store) (sessionId : Nat) : Nat :=
  (st.history.filter
    (fun h => h.session_id == sessionId && h.bot_response.isSome)).length

/-- `getSessions(userId, limit)`:
`SELECT s.*, COUNT(h.id) as message_count, MAX(h.created_at) as
last_message_at FROM chat_sessions s LEFT JOIN chat_history h ON s.id =
h.session_id WHERE s.user_id = ? AND s.is_active = 1 GROUP BY s.id ORDER BY
s.updated_at DESC LIMIT ?`. -/
def getSessions (st : Store) (userId : String) (limit : Nat) : List SessionView :=
  let active := st.sessions.filter (fun s => s.user_id == userId && s.is_active == 1)
  ((sortByUpdatedDesc active).take limit).map (fun s =>
    let msgs := st.history.filter (fun h => h.session_id == s.id)
    { row := s
      message_count := msgs.length
      last_message_at := (msgs.map (fun h => h.created_at)).max? })

/-- `createSession(userId, sessionName)`: inserts a new active session row
and resolves with its autoincrement id. -/
def createSession (st : Store) (userId : String) (sessionName : String)
    (now : Nat) : Store × Nat :=
  let row : SessionRow :=
    { id := st.nextSessionId, user_id := userId, session_name := sessionName
      created_at := now, updated_at := now, is_active := 1 }
  ({ st with sessions := st.sessions ++ [row]
             nextSessionId := st.nextSessionId + 1 }, row.id)

/-- `saveMessage(sessionId, messageId, userMessage, botResponse, isSqlMode)`:
`INSERT OR REPLACE INTO chat_history (session_id, message_id, user_message,
bot_response, is_sql_mode) VALUES (?,?,?,?,?)`; on success it also runs
`UPDATE chat_sessions SET updated_at = CURRENT_TIMESTAMP WHERE id = ?`.
INSERT OR REPLACE on the UNIQUE message_id column deletes any existing row
with the same message_id and inserts a fresh row (new autoincrement id,
new created_at, bot_response as supplied).  No check whatsoever is made on
the session id: the insert succeeds for archived and for nonexistent
sessions alike (SQLite foreign keys are not enabled by the backend). -/
def saveMessage (st : Store) (sessionId : Nat) (messageId : String)
    (userMessage : String) (botResponse : Option String) (isSqlMode : Bool)
    (now : Nat) : Store :=
  let kept := st.history.filter (fun h => h.message_id != messageId)
  let row : HistoryRow :=
    { id := st.nextHistoryId, session_id := sessionId, message_id := messageId
      user_message := userMessage, bot_response := botResponse
      is_sql_mode := if isSqlMode then 1 else 0, created_at := now }
  { st with
      history := kept ++ [row]
      sessions := st.sessions.map (fun s =>
        if s.id == sessionId then { s with updated_at := now } else s)
      nextHistoryId := st.nextHistoryId + 1 }

/-- `updateBotResponse(messageId, botResponse)`:
`UPDATE chat_history SET bot_response = ? WHERE message_id = ?`, resolving
with `this.changes` (the number of rows the UPDATE touched).  A plain
UPDATE: it never errors on an unknown id (0 changes) and it overwrites any
previously stored response. -/
def updateBotResponse (st : Store) (messageId : String)
    (botResponse : String) : Store × Nat :=
  let changes := (st.history.filter (fun h => h.message_id == messageId)).length
  ({ st with history := st.history.map (fun h =>
      if h.message_id == messageId then { h with bot_response := some botResponse }
      else h) }, changes)

/-- `archiveSession(sessionId)`: `UPDATE chat_sessions SET is_active = 0
WHERE id = ?`, resolving with the change count. -/
def archiveSession (st : Store) (sessionId : Nat) : Store × Nat :=
  let changes := (st.sessions.filter (fun s => s.id == sessionId)).length
  ({ st with sessions := st.sessions.map (fun s =>
      if s.id == sessionId then { s with is_active := 0 } else s) }, changes)

/-- The bot_response currently stored for a message id (none when no row
has that id). -/
def storedReply (st : Store) (messageId : String) : Option (Option String) :=
  (st.history.find? (fun h => h.message_id == messageId)).map
    (fun h => h.bot_response)

/-- Milliseconds per day, used by cleanupOldHistory's
`cutoffDate.setDate(cutoffDate.getDate() - retentionDays)`. -/
def msPerDay : Nat := 86400000

/-- The cutoff computed by cleanupOldHistory:
`new Date()` minus retentionDays days (truncated at the epoch). -/
def cutoffOf (retentionDays now : Nat) : Nat := now - retentionDays * msPerDay

/-- The subquery `SELECT id FROM chat_sessions WHERE updated_at < cutoff`. -/
def oldSessionIds (sessions : List SessionRow) (cutoff : Nat) : List Nat :=
  (sessions.filter (fun s => s.updated_at < cutoff)).map (fun s => s.id)

/-- First DELETE of the sweep: `DELETE FROM chat_history WHERE created_at <
cutoff AND session_id IN (SELECT id FROM chat_sessions WHERE updated_at <
cutoff)` — the rows that survive it. -/
def sweepHistory (hist : List HistoryRow) (sessions : List SessionRow)
    (cutoff : Nat) : List HistoryRow :=
  hist.filter (fun h =>
    !(decide (h.created_at < cutoff)
      && (oldSessionIds sessions cutoff).contains h.session_id))

/-- The subquery `SELECT DISTINCT session_id FROM chat_history WHERE
session_id IS NOT NULL` (DISTINCT does not matter for membership). -/
def referencedSessionIds (hist : List HistoryRow) : List Nat :=
  hist.map (fun h => h.session_id)

/-- Second DELETE of the sweep: `DELETE FROM chat_sessions WHERE updated_at
< cutoff AND id NOT IN (SELECT DISTINCT session_id FROM chat_history ...)`
— the rows that survive it. -/
def sweepSessions (sessions : List SessionRow) (hist : List HistoryRow)
    (cutoff : Nat) : List SessionRow :=
  sessions.filter (fun s =>
    !(decide (s.updated_at < cutoff)
      && !((referencedSessionIds hist).contains s.id)))

/-- `cleanupOldHistory()`: when `config.retentionDays` is falsy (0) it does
nothing; otherwise, inside one transaction, it first runs the chat_history
DELETE (`sweepHistory`) and then the chat_sessions DELETE
(`sweepSessions`).  Returns the new store together with the number of
history rows and of session rows deleted. -/
def cleanupOldHistory (st : Store) (retentionDays : Nat) (now : Nat) :
    Store × Nat × Nat :=
  if retentionDays == 0 then (st, 0, 0)
  else
    let cutoff := cutoffOf retentionDays now
    let keptHistory := sweepHistory st.history st.sessions cutoff
    let keptSessions := sweepSessions st.sessions keptHistory cutoff
    ({ st with sessions := keptSessions, history := keptHistory },
     st.history.length - keptHistory.length,
     st.sessions.length - keptSessions.length)

/-- One completed chat turn against the store, as the orchestrator performs
it: `saveMessage(sessionId, messageId, text)` (reply NULL) followed by
`updateBotResponse(messageId, reply)`. -/
structure Turn where
  sessionId : Nat
  messageId : String
  text : String
  reply : String
deriving Repr, DecidableEq

/-- Execute one append-then-fillReply turn. -/
def runTurn (st : Store) (t : Turn) (now : Nat) : Store :=
  (updateBotResponse (saveMessage st t.sessionId t.messageId t.text none false now)
    t.messageId t.reply).1

/-- Execute a sequence of turns in order (turns on different sessions may be
interleaved freely in the list). -/
def runTurns (st : Store) (ts : List Turn) (now : Nat) : Store :=
  ts.foldl (fun s t => runTurn s t now) st

/-- A store with one active session (id 1, owner "anonymous") and no
messages, used to evaluate the operations at concrete inputs. -/
def exStore : Store :=
  { sessions := [{ id := 1, user_id := "anonymous", session_name := "Chat 1"
                   created_at := 100, updated_at := 100, is_active := 1 }]
    history := [], nextSessionId := 2, nextHistoryId := 1 }

/-- `exStore` after one `saveMessage` whose reply was never filled: one
history row with `bot_response = NULL`. -/
def exStorePending : Store := saveMessage exStore 1 "m1" "hello" none false 200

end ChatHistory

namespace Relay

/-- The outbound payload built by sendMessage:
`{id, message, model, maxTokens, temperature, ...options}`.  Only the fields
the claims are about are modelled; model/maxTokens/temperature are fixed
config strings that play no role in correlation. -/
structure Payload where
  id : Nat
  message : String
deriving Repr, DecidableEq

/-- One entry of the `this.callbacks` Map: correlation id mapped to the
pending resolve/reject pair plus its `timestamp: Date.now()`.  The
resolve/reject continuations themselves are not data; what matters for the
claims is which ids are pending and when they were registered. -/
structure CallbackEntry where
  id : Nat
  timestamp : Nat
deriving Repr, DecidableEq

/-- A queued not-yet-sent request: `{ payload, resolve, reject }` pushed by
sendMessage when the socket is not connected. -/
structure QueuedMsg where
  payload : Payload
deriving Repr, DecidableEq

/-- The mutable state of LLMWebSocketService: isConnected, the WebSocket's
readyState === OPEN (modelled as a separate Bool), reconnectAttempts, the
FIFO messageQueue, the callbacks Map and the messageId counter
(initialized to 0 in the constructor). -/
structure WSClient where
  isConnected : Bool
  wsOpen : Bool
  reconnectAttempts : Nat
  messageQueue : List QueuedMsg
  callbacks : List CallbackEntry
  messageId : Nat
deriving Repr, DecidableEq

/-- The freshly constructed client (constructor of LLMWebSocketService). -/
def initClient : WSClient :=
  { isConnected := false, wsOpen := false, reconnectAttempts := 0
    messageQueue := [], callbacks := [], messageId := 0 }

/-- `this.callbacks.has(id)`. -/
def hasCb (cbs : List CallbackEntry) (id : Nat) : Bool :=
  cbs.any (fun c => c.id == id)

/-- `this.callbacks.set(id, {...})`: Map.set replaces the entry when the key
is present and appends it otherwise. -/
def setCb (cbs : List CallbackEntry) (e : CallbackEntry) : List CallbackEntry :=
  if hasCb cbs e.id then
    cbs.map (fun c => if c.id == e.id then e else c)
  else cbs ++ [e]

/-- `this.callbacks.delete(id)`. -/
def delCb (cbs : List CallbackEntry) (id : Nat) : List CallbackEntry :=
  cbs.filter (fun c => c.id != id)

/-- What the synchronous part of sendMessage did, as seen by its caller and
by the wire: the payload was transmitted, or queued, or `ws.send` threw and
the promise was rejected immediately. -/
inductive SendEffect where
  | transmitted (p : Payload)
  | queued (p : Payload)
  | rejectedSendError (id : Nat)
deriving Repr, DecidableEq

/-- The synchronous body of `sendMessage(message)`:
`const messageId = ++this.messageId` builds the payload, the callback is
registered unconditionally, then the payload is either sent on the open
socket (where `ws.send` may throw, modelled by `sendThrows`; the catch
deletes the callback and rejects) or pushed onto messageQueue.  The 30s
timeout it also arms is modelled separately by `onTimeout`. -/
def sendMessage (c : WSClient) (message : String) (now : Nat)
    (sendThrows : Bool) : WSClient × SendEffect :=
  let messageId := c.messageId + 1
  let payload : Payload := { id := messageId, message := message }
  let cbs := setCb c.callbacks { id := messageId, timestamp := now }
  let c := { c with messageId := messageId, callbacks := cbs }
  if c.isConnected && c.wsOpen then
    if sendThrows then
      ({ c with callbacks := delCb c.callbacks messageId },
       .rejectedSendError messageId)
    else (c, .transmitted payload)
  else
    ({ c with messageQueue := c.messageQueue ++ [{ payload := payload }] },
     .queued payload)

/-- The 30-second timer armed by sendMessage:
`if (this.callbacks.has(messageId)) { this.callbacks.delete(messageId);
reject(new Error('Request timeout')); }`.  It touches only the callbacks
Map — never the messageQueue.  The Bool reports whether the pending entry
was rejected with the timeout error. -/
def onTimeout (c : WSClient) (id : Nat) : WSClient × Bool :=
  if hasCb c.callbacks id then
    ({ c with callbacks := delCb c.callbacks id }, true)
  else (c, false)

/-- What handleMessage did to a caller: resolved the pending promise with
the reply, or rejected it with `new Error(message.error)`. -/
inductive RelayAction where
  | resolved (id : Nat)
  | rejectedUpstream (id : Nat)
deriving Repr, DecidableEq

/-- An inbound JSON message: its `id` field (none when absent; note that a
JavaScript id of 0 is falsy and fails the `message.id &&` guard) and
whether it carries an `error` field. -/
structure InboundMsg where
  id : Option Nat
  hasError : Bool
deriving Repr, DecidableEq

/-- `handleMessage(message)`: only when `message.id` is truthy AND the
callbacks Map has that id is the entry removed and the caller resolved
(or rejected when `message.error` is set); otherwise the message is
dropped and nothing changes. -/
def handleMessage (c : WSClient) (msg : InboundMsg) :
    WSClient × Option RelayAction :=
  match msg.id with
  | none => (c, none)
  | some i =>
    if i != 0 && hasCb c.callbacks i then
      ({ c with callbacks := delCb c.callbacks i },
       some (if msg.hasError then .rejectedUpstream i else .resolved i))
    else (c, none)

/-- `processMessageQueue()` (called from the `open` handler): shifts every
queued entry in FIFO order, sends its payload on the socket and re-registers
its callback with a fresh timestamp.  (The `ws.send` throw branch, which
rejects that one entry and continues, is modelled as not taken: the socket
has just opened.)  Returns the drained client and the list of payloads
transmitted upstream, in order. -/
def processMessageQueue (c : WSClient) (now : Nat) : WSClient × List Payload :=
  let sent := c.messageQueue.map (fun q => q.payload)
  ({ c with
      messageQueue := []
      callbacks := sent.foldl
        (fun cbs p => setCb cbs { id := p.id, timestamp := now }) c.callbacks },
   sent)

/-- All correlation ids held anywhere in the client — as keys of the
callbacks Map or as ids of queued payloads — are bounded by the messageId
counter.  This holds for the fresh client and is preserved by every
operation, and is what makes `++this.messageId` a source of fresh ids. -/
def idsBounded (c : WSClient) : Prop :=
  (∀ e ∈ c.callbacks, e.id ≤ c.messageId) ∧
  (∀ q ∈ c.messageQueue, q.payload.id ≤ c.messageId)

instance (c : WSClient) : Decidable (idsBounded c) := by
  unfold idsBounded; infer_instance

/-- The three canned sentences of generateFallbackResponse. -/
def fallbackResponses : List String :=
  ["I'm currently experiencing connectivity issues with the AI service. This is a fallback response.",
   "The AI service is temporarily unavailable. Please try again in a moment.",
   "I'm having trouble connecting to the main AI service right now. Using local fallback mode."]

/-- `generateFallbackResponse(message)`: one of the three canned sentences
(chosen by Math.random, modelled by the index `pick`) concatenated with
`"\n\nYour message: \"" + message + "\""`. -/
def generateFallbackResponse (pick : Nat) (message : String) : String :=
  (fallbackResponses.getD (pick % fallbackResponses.length) "")
    ++ "\n\nYour message: \"" ++ message ++ "\""

/-- The result of awaiting the sendMessage promise: resolved with a reply
string, or rejected (timeout, transport error on send, or upstream error
relayed by handleMessage). -/
inductive SendOutcome where
  | ok (reply : String)
  | err (e : String)
deriving Repr, DecidableEq

/-- `sendMessageWithFallback(message)`: if `this.isConnected`, await
sendMessage — any rejection is caught and replaced by the fallback text;
if not connected, return the fallback text directly.  In every branch the
function returns (`Except.ok`); the `.error` constructor would model an
exception escaping to the caller, and no branch produces it. -/
def sendMessageWithFallback (c : WSClient) (message : String) (pick : Nat)
    (outcome : SendOutcome) : Except String String :=
  if c.isConnected then
    match outcome with
    | .ok reply => .ok reply
    | .err _ => .ok (generateFallbackResponse pick message)
  else .ok (generateFallbackResponse pick message)

end Relay

namespace Orchestrator

/-- The service calls the `/api/chat` handler performs, in program order. -/
inductive ChatEvent where
  | createdSession
  | appendedUserMessage
  | appendFailed
  | relayInvoked
  | replyFilled
  | fillFailed
  | legacyInsert
deriving Repr, DecidableEq

/-- The HTTP-level outcome of the handler. -/
inductive ChatResult where
  | ok (reply : String)
  | badRequest
  | serverError
deriving Repr, DecidableEq

/-- `app.post('/api/chat', ...)` from the backend entry file, as a trace
semantics.  Inputs are the request body (`message`, optional `sessionId`)
and the environment the awaited promises resolve into: whether history is
enabled, the id createSession would return, whether the awaited saveMessage
resolves (`saveOk`), the relay result (sendMessageWithFallback resolves
with a string; a rejection — caught by the inner try — is modelled by
`Except.error`, answered with the local generateChatResponse text
`localReply`), and whether the awaited updateBotResponse resolves
(`fillOk`).  Any rejection escaping the outer try yields the 500 response.
`none` for `message` models a falsy request field (absent or empty string);
session ids are SQLite AUTOINCREMENT values starting at 1, so every `some`
session id is truthy.  Returns the response together with the ordered trace
of calls made. -/
def chatHandler (message : Option String) (sessionId : Option Nat)
    (historyEnabled : Bool) (createdId : Nat) (saveOk : Bool)
    (relayResult : Except String String) (localReply : String)
    (fillOk : Bool) : ChatResult × List ChatEvent :=
  match message with
  | none => (.badRequest, [])
  | some _ =>
    let (currentSessionId, ev0) :=
      match sessionId with
      | some s => (some s, ([] : List ChatEvent))
      | none =>
        if historyEnabled then (some createdId, [.createdSession])
        else (none, [])
    let useHistory := historyEnabled && currentSessionId.isSome
    if useHistory && !saveOk then
      (.serverError, ev0 ++ [.appendFailed])
    else
      let ev1 := ev0 ++ (if useHistory then [.appendedUserMessage] else [])
      let reply :=
        match relayResult with
        | .ok r => r
        | .error _ => localReply
      let ev2 := ev1 ++ [.relayInvoked]
      if useHistory && !fillOk then
        (.serverError, ev2 ++ [.fillFailed])
      else
        let ev3 := ev2 ++ (if useHistory then [.replyFilled] else [])
        (.ok reply, ev3 ++ [.legacyInsert])

end Orchestrator

/-! ## Helper lemmas -/

namespace ChatHistory

theorem length_filter_not {α : Type} (l : List α) (p : α → Bool) :
    (l.filter (fun a => !(p a))).length = l.length - (l.filter p).length := by
  induction l with
  | nil => rfl
  | cons a l ih =>
    have hle := List.length_filter_le p l
    by_cases h : p a = true
    · rw [List.filter_cons_of_pos h, List.filter_cons_of_neg (by simp [h])]
      simp only [List.length_cons]
      omega
    · rw [List.filter_cons_of_neg h, List.filter_cons_of_pos (by simp [h])]
      simp only [List.length_cons]
      omega

theorem find?_append_none {α : Type} {p : α → Bool} {l₁ l₂ : List α}
    (h : l₁.find? p = none) : (l₁ ++ l₂).find? p = l₂.find? p := by
  rw [List.find?_append, h, Option.none_or]

/-- A history row's message_id is untouched by the bot_response rewrite of
updateBotResponse. -/
theorem update_preserves_message_id (mid r : String) (h : HistoryRow) :
    ((if h.message_id == mid then { h with bot_response := some r } else h) :
      HistoryRow).message_id = h.message_id := by
  by_cases hm : h.message_id == mid <;> simp [hm]

/-- Ditto for session_id. -/
theorem update_preserves_session_id (mid r : String) (h : HistoryRow) :
    ((if h.message_id == mid then { h with bot_response := some r } else h) :
      HistoryRow).session_id = h.session_id := by
  by_cases hm : h.message_id == mid <;> simp [hm]

/-- updateBotResponse leaves the multiset of message ids of the history
unchanged (it only rewrites bot_response fields in place). -/
theorem updateBotResponse_message_ids (st : Store) (mid r : String) :
    (updateBotResponse st mid r).1.history.map (fun h => h.message_id)
      = st.history.map (fun h => h.message_id) := by
  unfold updateBotResponse
  dsimp only
  rw [List.map_map]
  apply List.map_congr_left
  intro h _
  exact update_preserves_message_id mid r h

/-- Counting rows of a given session is invariant under updateBotResponse. -/
theorem updateBotResponse_messageCount (st : Store) (mid r : String) (sid : Nat) :
    messageCount (updateBotResponse st mid r).1 sid = messageCount st sid := by
  unfold messageCount updateBotResponse
  dsimp only
  rw [← List.countP_eq_length_filter, ← List.countP_eq_length_filter,
    List.countP_map]
  apply List.countP_congr
  intro h _
  by_cases hm : h.message_id = mid <;> simp [Function.comp, hm]

/-- In the history list rewritten by updateBotResponse, the first row found
under the target message id carries the freshly written reply. -/
theorem find?_update_list (l : List HistoryRow) (mid r : String)
    (hex : ∃ h ∈ l, (h.message_id == mid) = true) :
    Option.map (fun h => h.bot_response)
      (List.find? (fun h => h.message_id == mid)
        (l.map (fun h =>
          if h.message_id == mid then { h with bot_response := some r } else h)))
      = some (some r) := by
  induction l with
  | nil => simp at hex
  | cons a l ih =>
    by_cases ha : (a.message_id == mid) = true
    · rw [List.map_cons, if_pos ha, List.find?_cons_of_pos _ (by simpa using ha)]
      rfl
    · obtain ⟨h0, hmem, hp⟩ := hex
      have hmem' : ∃ h ∈ l, (h.message_id == mid) = true := by
        rcases List.mem_cons.mp hmem with heq | hmem
        · subst heq; exact absurd hp ha
        · exact ⟨h0, hmem, hp⟩
      rw [List.map_cons, if_neg ha,
        List.find?_cons_of_neg _ (by simpa using ha)]
      exact ih hmem'

/-- After updateBotResponse, if some row carried the target message id, the
stored reply for that id is the freshly written one. -/
theorem storedReply_updateBotResponse (st : Store) (mid r : String)
    (hex : ∃ h ∈ st.history, (h.message_id == mid) = true) :
    storedReply (updateBotResponse st mid r).1 mid = some (some r) := by
  unfold storedReply updateBotResponse
  dsimp only
  exact find?_update_list st.history mid r hex

end ChatHistory


/-! ## Claims about the Relay Client -/

namespace Relay

/-- C2: For every input text, sendMessageWithFallback never raises to its
caller: in every case it answers with `Except.ok`, and whenever the
transport is not connected or the underlying send failed (timeout,
transport error, upstream error), the answer is the locally generated
fallback string, which contains the original input text verbatim. -/
theorem C2_sendWithFallback_never_raises (c : WSClient) (message : String)
    (pick : Nat) (outcome : SendOutcome) :
    (∃ r, sendMessageWithFallback c message pick outcome = .ok r) ∧
    ((c.isConnected = false ∨ (∃ e, outcome = SendOutcome.err e)) →
      ∃ pre post,
        sendMessageWithFallback c message pick outcome
          = .ok (pre ++ message ++ post)) := by
  have hfb : generateFallbackResponse pick message
      = ((fallbackResponses.getD (pick % fallbackResponses.length) "")
          ++ "\n\nYour message: \"") ++ message ++ "\"" := rfl
  constructor
  · unfold sendMessageWithFallback
    cases hc : c.isConnected <;> cases outcome <;> simp
  · intro h
    unfold sendMessageWithFallback
    cases hc : c.isConnected with
    | false =>
      exact ⟨_, _, by rw [if_neg (by simp), hfb]⟩
    | true =>
      rcases h with h | ⟨e, he⟩
      · exact absurd hc (by simp [h])
      · subst he
        exact ⟨_, _, by rw [if_pos rfl, hfb]⟩

/-- Witness for C2 at a concrete disconnected client. -/
theorem C2_witness :
    ∃ pre post,
      sendMessageWithFallback initClient "hello there" 0 (.err "timeout")
        = .ok (pre ++ "hello there" ++ post) :=
  (C2_sendWithFallback_never_raises initClient "hello there" 0
    (.err "timeout")).2 (Or.inl rfl)

/-- C8: an inbound message whose id matches no pending correlation entry is
dropped without fault: handleMessage returns the client unchanged (the
callbacks Map keeps exactly the same entries) and resolves or rejects no
caller. -/
theorem C8_unknown_id_dropped (c : WSClient) (msg : InboundMsg)
    (hunknown : ∀ i, msg.id = some i → hasCb c.callbacks i = false) :
    handleMessage c msg = (c, none) := by
  unfold handleMessage
  cases hid : msg.id with
  | none => rfl
  | some i => simp [hunknown i hid]

/-- Witness for C8: a client with one pending entry (id 1) receives a reply
with id 2; nothing changes and no caller is woken. -/
theorem C8_witness :
    (∀ i, (InboundMsg.mk (some 2) false).id = some i
        → hasCb [CallbackEntry.mk 1 0] i = false) ∧
    handleMessage { initClient with callbacks := [CallbackEntry.mk 1 0] }
        (InboundMsg.mk (some 2) false)
      = ({ initClient with callbacks := [CallbackEntry.mk 1 0] }, none) :=
  ⟨by decide, C8_unknown_id_dropped _ _ (by decide)⟩

/-- C5 counterexample: the claim says the 30s timeout removes the request
from the not-yet-sent queue as well, so it is never transmitted upstream
afterwards.  On a disconnected client, sendMessage queues request 1; the
timeout then fires and rejects it — yet the queue still holds payload 1,
and the flush on reconnect (processMessageQueue) transmits it upstream. -/
theorem C5_counterexample :
    (onTimeout (sendMessage initClient "hi" 10 false).1 1).2 = true ∧
    hasCb (onTimeout (sendMessage initClient "hi" 10 false).1 1).1.callbacks 1
      = false ∧
    (onTimeout (sendMessage initClient "hi" 10 false).1 1).1.messageQueue
      = [{ payload := { id := 1, message := "hi" } }] ∧
    (processMessageQueue
        (onTimeout (sendMessage initClient "hi" 10 false).1 1).1 20).2
      = [{ id := 1, message := "hi" }] := by decide

/-- C5 amended: the per-request timeout rejects the pending correlation
entry and removes it from the pending-callback map, but it does not touch
the not-yet-sent queue: the queue is exactly what it was, and every payload
still queued — including a timed-out one — is transmitted upstream when the
queue is flushed after reconnection. -/
theorem C5_timeout_spares_queue (c : WSClient) (id now : Nat)
    (hpending : hasCb c.callbacks id = true) :
    (onTimeout c id).2 = true ∧
    hasCb (onTimeout c id).1.callbacks id = false ∧
    (onTimeout c id).1.messageQueue = c.messageQueue ∧
    ∀ q ∈ c.messageQueue,
      q.payload ∈ (processMessageQueue (onTimeout c id).1 now).2 := by
  unfold onTimeout
  rw [if_pos hpending]
  refine ⟨rfl, ?_, rfl, ?_⟩
  · rw [Bool.eq_false_iff]
    intro hany
    unfold hasCb delCb at hany
    rw [List.any_eq_true] at hany
    obtain ⟨e, he, hbeq⟩ := hany
    rw [List.mem_filter] at he
    have h1 : e.id ≠ id := by simpa using he.2
    exact h1 (by simpa using hbeq)
  · intro q hq
    unfold processMessageQueue
    exact List.mem_map_of_mem _ hq

/-- Witness for C5's amended statement: client with pending entry 1 and a
queued payload. -/
theorem C5_witness :
    hasCb [CallbackEntry.mk 1 10] 1 = true ∧
    (onTimeout
        { initClient with
            callbacks := [CallbackEntry.mk 1 10]
            messageQueue := [{ payload := { id := 1, message := "hi" } }] }
        1).2 = true :=
  ⟨by decide,
    (C5_timeout_spares_queue
      { initClient with
          callbacks := [CallbackEntry.mk 1 10]
          messageQueue := [{ payload := { id := 1, message := "hi" } }] }
      1 20 (by decide)).1⟩

end Relay

/-! ## Claims about the Session Store -/

namespace ChatHistory

/-- C3 counterexample: after `saveMessage` of message "m1" and a first
`updateBotResponse("m1","r1")`, a second `updateBotResponse("m1","r2")`
does not fail — it reports 1 changed row — and the stored reply is "r2",
the value of the SECOND call, not the first; and a call on the unknown id
"zz" also does not fail: it reports 0 changed rows. -/
theorem C3_counterexample :
    (updateBotResponse (updateBotResponse exStorePending "m1" "r1").1 "m1" "r2").2
      = 1 ∧
    storedReply
        (updateBotResponse (updateBotResponse exStorePending "m1" "r1").1
          "m1" "r2").1 "m1"
      = some (some "r2") ∧
    (updateBotResponse exStorePending "zz" "r").2 = 0 := by decide

/-- C3 amended: `updateBotResponse` is a plain SQL UPDATE with no
exactly-once guard.  A second call on the same message id succeeds again
(reporting one changed row) and overwrites the stored reply with the second
value; a call with a message id no row carries succeeds as well, reporting
zero changed rows and leaving the store unchanged — neither
`ReplyAlreadySet` nor `MessageNotFound` exists. -/
theorem C3_fillReply_overwrites (st : Store) (mid r1 r2 : String)
    (hone : (st.history.filter (fun h => h.message_id == mid)).length = 1) :
    ((updateBotResponse (updateBotResponse st mid r1).1 mid r2).2 = 1 ∧
      storedReply (updateBotResponse (updateBotResponse st mid r1).1 mid r2).1
          mid = some (some r2)) ∧
    ∀ mid2 r, (∀ h ∈ st.history, h.message_id ≠ mid2) →
      (updateBotResponse st mid2 r).2 = 0 ∧ (updateBotResponse st mid2 r).1 = st := by
  have hcount : ∀ (s : Store) (r : String),
      ((updateBotResponse s mid r).1.history.filter
        (fun h => h.message_id == mid)).length
        = (s.history.filter (fun h => h.message_id == mid)).length := by
    intro s r
    unfold updateBotResponse
    dsimp only
    rw [← List.countP_eq_length_filter, ← List.countP_eq_length_filter,
      List.countP_map]
    apply List.countP_congr
    intro h _
    by_cases hm : h.message_id = mid <;> simp [Function.comp, hm]
  refine ⟨⟨?_, ?_⟩, ?_⟩
  · show ((updateBotResponse st mid r1).1.history.filter
        (fun h => h.message_id == mid)).length = 1
    rw [hcount, hone]
  · apply storedReply_updateBotResponse
    have h1 : ((updateBotResponse st mid r1).1.history.filter
        (fun h => h.message_id == mid)).length = 1 := by rw [hcount, hone]
    have hne : (updateBotResponse st mid r1).1.history.filter
        (fun h => h.message_id == mid) ≠ [] := by
      intro hnil; rw [hnil] at h1; exact absurd h1 (by simp)
    obtain ⟨h0, hh0⟩ := List.exists_mem_of_ne_nil _ hne
    exact ⟨h0, (List.mem_filter.mp hh0).1, (List.mem_filter.mp hh0).2⟩
  · intro mid2 r hnone
    have hnil : st.history.filter (fun h => h.message_id == mid2) = [] := by
      rw [List.filter_eq_nil_iff]
      intro h hh
      simpa using hnone h hh
    constructor
    · show (st.history.filter (fun h => h.message_id == mid2)).length = 0
      rw [hnil]; rfl
    · show ({ st with history := st.history.map (fun h =>
          if h.message_id == mid2 then { h with bot_response := some r }
          else h) } : Store) = st
      have hmap : st.history.map (fun h =>
          if h.message_id == mid2 then { h with bot_response := some r }
          else h) = st.history.map id := by
        apply List.map_congr_left
        intro h hh
        rw [if_neg (by simpa using hnone h hh)]
        rfl
      rw [hmap, List.map_id]

/-- Witness for C3's amended statement at the concrete pending store. -/
theorem C3_witness :
    ((exStorePending.history.filter (fun h => h.message_id == "m1")).length = 1) ∧
    (updateBotResponse (updateBotResponse exStorePending "m1" "ra").1 "m1" "rb").2
      = 1 :=
  ⟨by decide,
    (C3_fillReply_overwrites exStorePending "m1" "ra" "rb" (by decide)).1.1⟩

/-- C4 counterexample: archive session 1 of the example store, then append
message "m1" to it.  The claim says the append must fail with
`SessionArchived` and insert no row; in the code the INSERT is run with no
session check at all, succeeds, and the row is there. -/
theorem C4_counterexample :
    (saveMessage (archiveSession exStore 1).1 1 "m1" "hi" none false 300).history
      = [{ id := 1, session_id := 1, message_id := "m1", user_message := "hi"
           bot_response := none, is_sql_mode := 0, created_at := 300 }] := by
  decide

/-- C4 amended: `saveMessage` performs no session-state validation
whatsoever.  Even on a session that has been archived (is_active = 0) — and
likewise on a wholly nonexistent session id — the append succeeds and
inserts the message row; no `SessionArchived` or `SessionNotFound` failure
exists in the code, and no restore step is needed for appends to succeed. -/
theorem C4_append_ignores_archival (st : Store) (sid : Nat) (mid msg : String)
    (now : Nat)
    (_harch : (∃ s ∈ st.sessions, s.id = sid ∧ s.is_active = 0)
      ∨ ∀ s ∈ st.sessions, s.id ≠ sid) :
    ∃ h ∈ (saveMessage st sid mid msg none false now).history,
      h.session_id = sid ∧ h.message_id = mid ∧ h.user_message = msg
        ∧ h.bot_response = none := by
  unfold saveMessage
  dsimp only
  refine ⟨_, List.mem_append_right _ (List.mem_singleton.mpr rfl),
    rfl, rfl, rfl, rfl⟩

/-- Witness for C4's amended statement: the archived example session. -/
theorem C4_witness :
    (∃ s ∈ (archiveSession exStore 1).1.sessions, s.id = 1 ∧ s.is_active = 0) ∧
    ∃ h ∈ (saveMessage (archiveSession exStore 1).1 1 "m1" "hi" none
        false 300).history,
      h.session_id = 1 ∧ h.message_id = "m1" ∧ h.user_message = "hi"
        ∧ h.bot_response = none :=
  ⟨by decide,
    C4_append_ignores_archival (archiveSession exStore 1).1 1 "m1" "hi" 300
      (Or.inl (by decide))⟩

/-- C9: saveMessage implements INSERT OR REPLACE on the UNIQUE message_id
column.  Called again with an already-used message id it neither fails nor
adds a second row: the row count is unchanged, the old record is replaced,
and the surviving row under that id carries the newly supplied
bot_response and created_at. -/
theorem C9_save_replaces (st : Store) (sid : Nat) (mid msg : String)
    (resp : Option String) (mode : Bool) (now : Nat)
    (hone : (st.history.filter (fun h => h.message_id == mid)).length = 1) :
    (saveMessage st sid mid msg resp mode now).history.length
      = st.history.length ∧
    storedReply (saveMessage st sid mid msg resp mode now) mid = some resp ∧
    ∃ h ∈ (saveMessage st sid mid msg resp mode now).history,
      h.message_id = mid ∧ h.session_id = sid ∧ h.bot_response = resp
        ∧ h.created_at = now := by
  have hnot : st.history.filter (fun h => h.message_id != mid)
      = st.history.filter (fun h => !(h.message_id == mid)) := rfl
  have hlen := length_filter_not st.history (fun h => h.message_id == mid)
  have hle := List.length_filter_le (fun h => h.message_id == mid) st.history
  have hfind : List.find? (fun h => h.message_id == mid)
      (st.history.filter (fun h => h.message_id != mid)) = none := by
    rw [List.find?_eq_none]
    intro x hx
    simpa using (List.mem_filter.mp hx).2
  unfold saveMessage storedReply
  dsimp only
  refine ⟨?_, ?_, ?_⟩
  · rw [List.length_append, hnot, hlen, hone]
    simp only [List.length_singleton]
    omega
  · rw [find?_append_none hfind, List.find?_cons_of_pos _ (by simp)]
    rfl
  · exact ⟨_, List.mem_append_right _ (List.mem_singleton.mpr rfl),
      rfl, rfl, rfl, rfl⟩

/-- Witness for C9 at the pending example store, which holds exactly one
row under message id "m1". -/
theorem C9_witness :
    ((exStorePending.history.filter (fun h => h.message_id == "m1")).length = 1) ∧
    storedReply (saveMessage exStorePending 1 "m1" "hello2" (some "r") false 400)
        "m1" = some (some "r") :=
  ⟨by decide,
    (C9_save_replaces exStorePending 1 "m1" "hello2" (some "r") false 400
      (by decide)).2.1⟩

end ChatHistory

namespace ChatHistory

theorem filter_ne_of_fresh (l : List HistoryRow) (mid : String)
    (hfresh : ∀ h ∈ l, h.message_id ≠ mid) :
    l.filter (fun h => h.message_id != mid) = l :=
  List.filter_eq_self.mpr (fun h hh => by simpa using hfresh h hh)

/-- One append-then-fillReply turn with a message id not yet in the store
adds exactly one row to the turn's session and none to any other. -/
theorem runTurn_messageCount (st : Store) (t : Turn) (now sid : Nat)
    (hfresh : ∀ h ∈ st.history, h.message_id ≠ t.messageId) :
    messageCount (runTurn st t now) sid
      = messageCount st sid + (if t.sessionId == sid then 1 else 0) := by
  unfold runTurn
  rw [updateBotResponse_messageCount]
  unfold messageCount saveMessage
  dsimp only
  rw [filter_ne_of_fresh st.history t.messageId hfresh,
    List.filter_append, List.length_append]
  congr 1
  by_cases ht : (t.sessionId == sid) = true
  · simp [List.filter_cons, ht]
  · simp [List.filter_cons, ht]

/-- A fresh turn appends its message id to the history's id column. -/
theorem runTurn_message_ids (st : Store) (t : Turn) (now : Nat)
    (hfresh : ∀ h ∈ st.history, h.message_id ≠ t.messageId) :
    (runTurn st t now).history.map (fun h => h.message_id)
      = st.history.map (fun h => h.message_id) ++ [t.messageId] := by
  unfold runTurn
  rw [updateBotResponse_message_ids]
  unfold saveMessage
  dsimp only
  rw [filter_ne_of_fresh st.history t.messageId hfresh, List.map_append]
  rfl

/-- Counting over a whole interleaved sequence of turns: each session
receives exactly its own turns. -/
theorem runTurns_messageCount (st : Store) (ts : List Turn) (now sid : Nat)
    (hfresh : ∀ t ∈ ts, ∀ h ∈ st.history, h.message_id ≠ t.messageId)
    (hdist : ts.Pairwise (fun a b => a.messageId ≠ b.messageId)) :
    messageCount (runTurns st ts now) sid
      = messageCount st sid
        + (ts.filter (fun t => t.sessionId == sid)).length := by
  revert hfresh hdist
  induction ts generalizing st with
  | nil =>
    intro _ _
    simp [runTurns]
  | cons t ts ih =>
    intro hfresh hdist
    have hd := List.pairwise_cons.mp hdist
    have hfresh_t : ∀ h ∈ st.history, h.message_id ≠ t.messageId :=
      hfresh t (List.mem_cons_self t ts)
    have hfresh' : ∀ u ∈ ts, ∀ h ∈ (runTurn st t now).history,
        h.message_id ≠ u.messageId := by
      intro u hu h hh
      have hmem : h.message_id ∈ (runTurn st t now).history.map
          (fun h => h.message_id) := List.mem_map_of_mem _ hh
      rw [runTurn_message_ids st t now hfresh_t] at hmem
      rcases List.mem_append.mp hmem with hmem | hmem
      · obtain ⟨h0, hh0, heq⟩ := List.mem_map.mp hmem
        rw [← heq]
        exact hfresh u (List.mem_cons_of_mem t hu) h0 hh0
      · rw [List.mem_singleton.mp hmem]
        exact hd.1 u hu
    have hstep : runTurns st (t :: ts) now
        = runTurns (runTurn st t now) ts now := rfl
    rw [hstep, ih (runTurn st t now) hfresh' hd.2,
      runTurn_messageCount st t now sid hfresh_t, List.filter_cons]
    by_cases ht : (t.sessionId == sid) = true
    · rw [if_pos ht, if_pos ht, List.length_cons]
      omega
    · rw [if_neg ht, if_neg ht]
      omega

/-- The message_count column reported by getSessions is the plain row count
of the session's history rows. -/
theorem getSessions_message_count (st : Store) (u : String) (lim : Nat) :
    ∀ v ∈ getSessions st u lim, v.message_count = messageCount st v.row.id := by
  intro v hv
  unfold getSessions at hv
  dsimp only at hv
  obtain ⟨s, _, rfl⟩ := List.mem_map.mp hv
  rfl

/-- C1 counterexample: the claim says history rows whose reply is still
null are NOT counted in message_count.  In the pending example store (one
appendMessage, no fillReply — zero completed pairs) getSessions reports
message_count = 1 for session 1: the null-reply row is counted. -/
theorem C1_counterexample :
    (getSessions exStorePending "anonymous" 50).map
        (fun v => (v.row.id, v.message_count)) = [(1, 1)] ∧
    completedCount exStorePending 1 = 0 := by decide

/-- C1 amended: the message_count reported by getSessions equals the TOTAL
number of message rows recorded against the session — rows whose reply is
still null included.  After a sequence of append-then-fillReply turns with
fresh pairwise-distinct message ids, a session's count grows by exactly the
number of turns on that session, regardless of interleaving with turns on
other sessions (so after N completed turns on a session starting empty and
with no pending appends, it is N). -/
theorem C1_message_count_counts_all_rows (st : Store) (ts : List Turn)
    (now sid lim : Nat) (u : String)
    (hfresh : ∀ t ∈ ts, ∀ h ∈ st.history, h.message_id ≠ t.messageId)
    (hdist : ts.Pairwise (fun a b => a.messageId ≠ b.messageId)) :
    (∀ v ∈ getSessions (runTurns st ts now) u lim,
        v.message_count = messageCount (runTurns st ts now) v.row.id) ∧
    messageCount (runTurns st ts now) sid
      = messageCount st sid
        + (ts.filter (fun t => t.sessionId == sid)).length :=
  ⟨getSessions_message_count _ u lim,
    runTurns_messageCount st ts now sid hfresh hdist⟩

/-- Witness for C1's amended statement: three turns, two on session 1 and
one on session 2, interleaved; session 1 ends with count 2. -/
theorem C1_witness :
    (∀ t ∈ [Turn.mk 1 "a" "x" "ra", Turn.mk 2 "b" "y" "rb",
        Turn.mk 1 "c" "z" "rc"],
      ∀ h ∈ exStore.history, h.message_id ≠ t.messageId) ∧
    ([Turn.mk 1 "a" "x" "ra", Turn.mk 2 "b" "y" "rb",
        Turn.mk 1 "c" "z" "rc"].Pairwise
      (fun a b => a.messageId ≠ b.messageId)) ∧
    messageCount (runTurns exStore [Turn.mk 1 "a" "x" "ra",
        Turn.mk 2 "b" "y" "rb", Turn.mk 1 "c" "z" "rc"] 500) 1
      = messageCount exStore 1
        + ([Turn.mk 1 "a" "x" "ra", Turn.mk 2 "b" "y" "rb",
            Turn.mk 1 "c" "z" "rc"].filter (fun t => t.sessionId == 1)).length :=
  ⟨by decide, by decide,
    (C1_message_count_counts_all_rows exStore
      [Turn.mk 1 "a" "x" "ra", Turn.mk 2 "b" "y" "rb", Turn.mk 1 "c" "z" "rc"]
      500 1 50 "anonymous" (by decide) (by decide)).2⟩

end ChatHistory

namespace ChatHistory

theorem contains_true_iff (l : List Nat) (a : Nat) :
    l.contains a = true ↔ a ∈ l := List.elem_iff

/-- Shrinking the session table can only shrink the set of
"old session" ids the history DELETE keys on. -/
theorem oldSessionIds_mono (sess sess' : List SessionRow) (cutoff : Nat)
    (hsub : ∀ s ∈ sess', s ∈ sess) :
    ∀ x ∈ oldSessionIds sess' cutoff, x ∈ oldSessionIds sess cutoff := by
  intro x hx
  unfold oldSessionIds at hx ⊢
  obtain ⟨s, hs, rfl⟩ := List.mem_map.mp hx
  have hm := List.mem_filter.mp hs
  exact List.mem_map_of_mem _ (List.mem_filter.mpr ⟨hsub s hm.1, hm.2⟩)

/-- Rows that survived the history DELETE once survive it again, for any
session table that is a sub-collection of the original one. -/
theorem sweepHistory_stable (hist : List HistoryRow)
    (sess sess' : List SessionRow) (cutoff : Nat)
    (hsub : ∀ s ∈ sess', s ∈ sess) :
    sweepHistory (sweepHistory hist sess cutoff) sess' cutoff
      = sweepHistory hist sess cutoff := by
  apply List.filter_eq_self.mpr
  intro h hh
  have h1 := (List.mem_filter.mp hh).2
  by_cases hc : decide (h.created_at < cutoff) = true
  · rw [hc, Bool.true_and] at h1 ⊢
    rw [Bool.not_eq_true', Bool.eq_false_iff] at h1 ⊢
    intro hcon
    apply h1
    rw [contains_true_iff] at hcon ⊢
    exact oldSessionIds_mono sess sess' cutoff hsub _ hcon
  · rw [Bool.not_eq_true] at hc
    rw [hc, Bool.false_and]
    rfl

/-- Sessions that survived the session DELETE once survive it again against
the same history table. -/
theorem sweepSessions_stable (sess : List SessionRow) (hist : List HistoryRow)
    (cutoff : Nat) :
    sweepSessions (sweepSessions sess hist cutoff) hist cutoff
      = sweepSessions sess hist cutoff := by
  apply List.filter_eq_self.mpr
  intro s hs
  exact (List.mem_filter.mp hs).2

/-- A session deleted by the sweep is referenced by no surviving history
row. -/
theorem sweepSessions_no_orphans (sess : List SessionRow)
    (hist : List HistoryRow) (cutoff : Nat) :
    ∀ s ∈ sess, s ∉ sweepSessions sess hist cutoff →
      ∀ h ∈ hist, h.session_id ≠ s.id := by
  intro s hs hns h hh heq
  apply hns
  unfold sweepSessions
  apply List.mem_filter.mpr
  refine ⟨hs, ?_⟩
  have href : (referencedSessionIds hist).contains s.id = true := by
    rw [contains_true_iff]
    exact heq ▸ List.mem_map_of_mem _ hh
  rw [href]
  simp

/-- A run of the sweep on a store whose tables are already stable under
both DELETEs returns the store unchanged and deletes 0 and 0 rows. -/
theorem cleanup_second_run (st : Store) (d now : Nat) (hd : (d == 0) = false)
    (hstable_h : sweepHistory st.history st.sessions (cutoffOf d now)
      = st.history)
    (hstable_s : sweepSessions st.sessions st.history (cutoffOf d now)
      = st.sessions) :
    cleanupOldHistory st d now = (st, 0, 0) := by
  unfold cleanupOldHistory
  rw [hd]
  simp only [Bool.false_eq_true, if_false]
  rw [hstable_h, hstable_s, Nat.sub_self, Nat.sub_self]

/-- C7: the retention sweep is idempotent — run twice with no writes in
between (same wall-clock cutoff), the second run returns the store of the
first unchanged and reports 0 deleted message rows and 0 deleted session
rows — and it deletes messages before sessions: any session row it removes
is referenced by no surviving message row. -/
theorem C7_sweep_idempotent (st : Store) (d now : Nat) :
    cleanupOldHistory (cleanupOldHistory st d now).1 d now
      = ((cleanupOldHistory st d now).1, 0, 0) ∧
    (∀ s ∈ st.sessions, s ∉ (cleanupOldHistory st d now).1.sessions →
      ∀ h ∈ (cleanupOldHistory st d now).1.history, h.session_id ≠ s.id) := by
  by_cases hd : (d == 0) = true
  · constructor
    · unfold cleanupOldHistory
      rw [if_pos hd, if_pos hd]
    · intro s hs hns h _ _
      apply hns
      unfold cleanupOldHistory
      rw [if_pos hd]
      exact hs
  · rw [Bool.not_eq_true] at hd
    have hrun : cleanupOldHistory st d now
        = ({ st with
              sessions := sweepSessions st.sessions
                (sweepHistory st.history st.sessions (cutoffOf d now))
                (cutoffOf d now)
              history := sweepHistory st.history st.sessions (cutoffOf d now) },
           st.history.length
             - (sweepHistory st.history st.sessions (cutoffOf d now)).length,
           st.sessions.length
             - (sweepSessions st.sessions
                 (sweepHistory st.history st.sessions (cutoffOf d now))
                 (cutoffOf d now)).length) := by
      unfold cleanupOldHistory
      rw [hd]
      rfl
    constructor
    · have hsub : ∀ s ∈ sweepSessions st.sessions
          (sweepHistory st.history st.sessions (cutoffOf d now))
          (cutoffOf d now), s ∈ st.sessions := by
        intro s hs
        exact (List.mem_filter.mp hs).1
      have hhist2 : sweepHistory
          (sweepHistory st.history st.sessions (cutoffOf d now))
          (sweepSessions st.sessions
            (sweepHistory st.history st.sessions (cutoffOf d now))
            (cutoffOf d now))
          (cutoffOf d now)
          = sweepHistory st.history st.sessions (cutoffOf d now) :=
        sweepHistory_stable _ _ _ _ hsub
      rw [hrun]
      apply cleanup_second_run _ d now hd
      · dsimp only
        exact hhist2
      · dsimp only
        exact sweepSessions_stable st.sessions
          (sweepHistory st.history st.sessions (cutoffOf d now)) (cutoffOf d now)
    · intro s hs hns h hh
      rw [hrun] at hns hh
      dsimp only at hns hh
      exact sweepSessions_no_orphans st.sessions _ (cutoffOf d now) s hs hns h hh
end ChatHistory

namespace Relay

/-- Map.set either rewrites an existing key in place or appends: its result
entries come from the old map or are the new entry. -/
theorem mem_setCb {cbs : List CallbackEntry} {x e : CallbackEntry}
    (h : e ∈ setCb cbs x) : e ∈ cbs ∨ e = x := by
  unfold setCb at h
  by_cases hc : hasCb cbs x.id = true
  · rw [if_pos hc] at h
    obtain ⟨a, ha, heq⟩ := List.mem_map.mp h
    by_cases hax : (a.id == x.id) = true
    · rw [if_pos hax] at heq
      right; exact heq.symm
    · rw [if_neg hax] at heq
      left; exact heq ▸ ha
  · rw [if_neg hc] at h
    rcases List.mem_append.mp h with h | h
    · left; exact h
    · right; exact List.mem_singleton.mp h

theorem setCb_bound {cbs : List CallbackEntry} {x : CallbackEntry} {n : Nat}
    (hcbs : ∀ e ∈ cbs, e.id ≤ n) (hx : x.id ≤ n) :
    ∀ e ∈ setCb cbs x, e.id ≤ n := by
  intro e he
  rcases mem_setCb he with h | h
  · exact hcbs e h
  · rw [h]; exact hx

/-- Registering the queued payloads (as processMessageQueue does) keeps all
callback keys bounded when the payload ids are. -/
theorem foldl_setCb_bound (ps : List Payload) (cbs : List CallbackEntry)
    (n now : Nat) (hcbs : ∀ e ∈ cbs, e.id ≤ n) (hps : ∀ p ∈ ps, p.id ≤ n) :
    ∀ e ∈ ps.foldl
        (fun acc p => setCb acc { id := p.id, timestamp := now }) cbs,
      e.id ≤ n := by
  induction ps generalizing cbs with
  | nil => exact hcbs
  | cons p ps ih =>
    intro e he
    refine ih (setCb cbs { id := p.id, timestamp := now })
      (setCb_bound hcbs (hps p (List.mem_cons_self p ps)))
      (fun q hq => hps q (List.mem_cons_of_mem p hq)) e he

/-- C10: correlation ids come from the strictly increasing per-client
counter `++this.messageId`.  Under the invariant that every id held in the
callbacks Map or in the queue is at most the counter (true of the fresh
client and preserved by sendMessage, the timeout handler, handleMessage and
the queue flush), each sendMessage bumps the counter and uses an id that no
existing callback entry carries — so Map.set takes its append branch and
never overwrites a pending entry. -/
theorem C10_fresh_correlation_ids (c : WSClient) (m : String) (now : Nat)
    (thr : Bool) (tid : Nat) (msg : InboundMsg) (hinv : idsBounded c) :
    idsBounded initClient ∧
    (sendMessage c m now thr).1.messageId = c.messageId + 1 ∧
    hasCb c.callbacks (c.messageId + 1) = false ∧
    setCb c.callbacks { id := c.messageId + 1, timestamp := now }
      = c.callbacks ++ [{ id := c.messageId + 1, timestamp := now }] ∧
    idsBounded (sendMessage c m now thr).1 ∧
    idsBounded (onTimeout c tid).1 ∧
    idsBounded (handleMessage c msg).1 ∧
    idsBounded (processMessageQueue c now).1 := by
  have hfresh : hasCb c.callbacks (c.messageId + 1) = false := by
    rw [Bool.eq_false_iff]
    intro h
    rw [hasCb, List.any_eq_true] at h
    obtain ⟨e, he, hbeq⟩ := h
    have hle := hinv.1 e he
    have heq : e.id = c.messageId + 1 := by simpa using hbeq
    omega
  refine ⟨by decide, ?_, hfresh, ?_, ?_, ?_, ?_, ?_⟩
  · unfold sendMessage
    dsimp only
    by_cases h1 : (c.isConnected && c.wsOpen) = true
    · rw [if_pos h1]
      by_cases h2 : thr = true
      · rw [if_pos h2]
      · rw [if_neg h2]
    · rw [if_neg h1]
  · unfold setCb
    rw [hfresh]
    simp
  · have hset : ∀ e ∈ setCb c.callbacks
        { id := c.messageId + 1, timestamp := now }, e.id ≤ c.messageId + 1 :=
      setCb_bound (fun e he => Nat.le_succ_of_le (hinv.1 e he)) (Nat.le_refl _)
    have hq : ∀ q ∈ c.messageQueue, q.payload.id ≤ c.messageId + 1 :=
      fun q hq => Nat.le_succ_of_le (hinv.2 q hq)
    unfold sendMessage
    dsimp only
    by_cases h1 : (c.isConnected && c.wsOpen) = true
    · rw [if_pos h1]
      by_cases h2 : thr = true
      · rw [if_pos h2]
        exact ⟨fun e he => hset e (List.mem_filter.mp he).1, hq⟩
      · rw [if_neg h2]
        exact ⟨hset, hq⟩
    · rw [if_neg h1]
      refine ⟨hset, ?_⟩
      intro q hq2
      rcases List.mem_append.mp hq2 with h | h
      · exact hq q h
      · rw [List.mem_singleton.mp h]
  · unfold onTimeout
    by_cases h : hasCb c.callbacks tid = true
    · rw [if_pos h]
      exact ⟨fun e he => hinv.1 e (List.mem_filter.mp he).1, hinv.2⟩
    · rw [if_neg h]
      exact hinv
  · unfold handleMessage
    cases msg.id with
    | none => exact hinv
    | some i =>
      dsimp only
      by_cases h : (i != 0 && hasCb c.callbacks i) = true
      · rw [if_pos h]
        exact ⟨fun e he => hinv.1 e (List.mem_filter.mp he).1, hinv.2⟩
      · rw [if_neg h]
        exact hinv
  · unfold processMessageQueue
    dsimp only
    refine ⟨?_, ?_⟩
    · exact foldl_setCb_bound _ _ _ now hinv.1
        (fun p hp => by
          obtain ⟨q, hq, rfl⟩ := List.mem_map.mp hp
          exact hinv.2 q hq)
    · intro q hq
      simp at hq
  
/-- Witness for C10 at the fresh client. -/
theorem C10_witness :
    idsBounded initClient ∧
    (sendMessage initClient "hi" 5 false).1.messageId
      = initClient.messageId + 1 :=
  ⟨by decide,
    (C10_fresh_correlation_ids initClient "hi" 5 false 1
      (InboundMsg.mk (some 1) false) (by decide)).2.1⟩

end Relay

namespace Orchestrator

/-- C6: in the chat-turn handler (with history enabled, as the spec's
orchestrator assumes), the awaited saveMessage strictly precedes the relay
call: if the append's promise rejects, the handler answers 500 and the relay
is never invoked; whenever the relay was invoked the append had succeeded;
and on the success path the trace shows the append event immediately before
the relay event. -/
theorem C6_append_before_relay (message : String) (sessionId : Option Nat)
    (createdId : Nat) (saveOk : Bool) (relayResult : Except String String)
    (localReply : String) (fillOk : Bool) :
    (saveOk = false →
      (chatHandler (some message) sessionId true createdId saveOk relayResult
          localReply fillOk).1 = .serverError ∧
      ChatEvent.relayInvoked ∉
        (chatHandler (some message) sessionId true createdId saveOk relayResult
          localReply fillOk).2) ∧
    (ChatEvent.relayInvoked ∈
        (chatHandler (some message) sessionId true createdId saveOk relayResult
          localReply fillOk).2 →
      saveOk = true) ∧
    (saveOk = true →
      (chatHandler (some message) sessionId true createdId saveOk relayResult
          localReply fillOk).2
        = (match sessionId with
            | none => [ChatEvent.createdSession]
            | some _ => [])
          ++ [ChatEvent.appendedUserMessage, ChatEvent.relayInvoked]
          ++ (if fillOk then [ChatEvent.replyFilled, ChatEvent.legacyInsert]
              else [ChatEvent.fillFailed])) := by
  cases sessionId <;> cases saveOk <;> cases fillOk <;>
    simp [chatHandler]

/-- Witness for C6: a failing append on a fresh session yields 500 with no
relay call in the trace. -/
theorem C6_witness :
    (chatHandler (some "hello") none true 7 false (Except.ok "re") "lo"
        true).1 = ChatResult.serverError ∧
    ChatEvent.relayInvoked ∉
      (chatHandler (some "hello") none true 7 false (Except.ok "re") "lo"
        true).2 :=
  (C6_append_before_relay "hello" none 7 false (Except.ok "re") "lo" true).1
    rfl

end Orchestrator
